import Mathlib

/-!
Verification of the QuizBot web-app client (`src/webapp/script.js`).

The script is embedded shallowly: the pure computation performed by each
JavaScript function is translated into an executable Lean definition, with
the DOM and the network abstracted into explicit inputs and outputs.

Conventions used throughout:
* JavaScript strings are modelled by Lean `String`.  All inputs relevant to
  the claims are ASCII, where `String.length` agrees with JS `.length`
  (UTF-16 units); JS `.trim()` is modelled explicitly by `jsTrim`.
* JS truthiness of a string (`if (s)`) is modelled by `s ≠ ""` and
  truthiness of a possibly-null string by `≠ none` plus `≠ some ""`.
* Browser APIs (`URLSearchParams`, `decodeURIComponent`) are modelled after
  their standard behaviour (WHATWG URL / ECMA-262), restricted to the
  operations the script uses.
-/

namespace QuizBot

/-! ## Percent decoding

`decodeURIComponent` (ECMA-262 `Decode`): each `%XX` escape contributes one
byte; runs of consecutive escaped bytes must form valid UTF-8; a malformed
escape or invalid UTF-8 throws (modelled by `none`).  `URLSearchParams`
instead uses the lenient application/x-www-form-urlencoded decode: a `%` not
followed by two hex digits stays literal, and invalid UTF-8 produces U+FFFD
replacement characters. -/

/-- The value of one hexadecimal digit (`0-9`, `A-F`, `a-f`), written over
code points. -/
def hexDigitVal? (c : Char) : Option Nat :=
  let n := c.toNat
  if 48 ≤ n ∧ n ≤ 57 then some (n - 48)
  else if 65 ≤ n ∧ n ≤ 70 then some (n - 55)
  else if 97 ≤ n ∧ n ≤ 102 then some (n - 87)
  else none

/-- A token of a percent-encoded string: either a literal character or the
byte contributed by one `%XX` escape. -/
inductive UriTok where
  | lit (c : Char)
  | esc (b : Nat)
deriving DecidableEq

/-- Strict escape scan (ECMA-262): `%` must be followed by two hex digits. -/
def pctToks? : List Char → Option (List UriTok)
  | [] => some []
  | '%' :: rest =>
    match rest with
    | h1 :: h2 :: rest2 =>
      match hexDigitVal? h1, hexDigitVal? h2 with
      | some a, some b => (pctToks? rest2).map (fun ts => .esc (16 * a + b) :: ts)
      | _, _ => none
    | _ => none
  | c :: rest => (pctToks? rest).map (fun ts => .lit c :: ts)

/-- Lenient escape scan (WHATWG percent-decode): a `%` not followed by two
hex digits is kept literally. -/
def pctToksLenient : List Char → List UriTok
  | [] => []
  | '%' :: h1 :: h2 :: rest =>
    match hexDigitVal? h1, hexDigitVal? h2 with
    | some a, some b => .esc (16 * a + b) :: pctToksLenient rest
    | _, _ => .lit '%' :: pctToksLenient (h1 :: h2 :: rest)
  | c :: rest => .lit c :: pctToksLenient rest

/-- A partially-read multi-byte UTF-8 sequence: accumulated bits, the number
of continuation bytes still expected, and the admissible range for the next
byte (which encodes the E0/ED/F0/F4 corner cases excluding overlong forms
and surrogates). -/
structure Utf8Pending where
  acc : Nat
  need : Nat
  lo : Nat
  hi : Nat
deriving DecidableEq

/-- Classify one byte as a sequence start: a finished ASCII character, the
start of a multi-byte sequence, or invalid. -/
def utf8Start (b : Nat) : Option (Option Utf8Pending × List Char) :=
  if b < 0x80 then some (none, [Char.ofNat b])
  else if 0xC2 ≤ b ∧ b ≤ 0xDF then some (some ⟨b - 0xC0, 1, 0x80, 0xBF⟩, [])
  else if b = 0xE0 then some (some ⟨0, 2, 0xA0, 0xBF⟩, [])
  else if 0xE1 ≤ b ∧ b ≤ 0xEC then some (some ⟨b - 0xE0, 2, 0x80, 0xBF⟩, [])
  else if b = 0xED then some (some ⟨0xD, 2, 0x80, 0x9F⟩, [])
  else if 0xEE ≤ b ∧ b ≤ 0xEF then some (some ⟨b - 0xE0, 2, 0x80, 0xBF⟩, [])
  else if b = 0xF0 then some (some ⟨0, 3, 0x90, 0xBF⟩, [])
  else if 0xF1 ≤ b ∧ b ≤ 0xF3 then some (some ⟨b - 0xF0, 3, 0x80, 0xBF⟩, [])
  else if b = 0xF4 then some (some ⟨4, 3, 0x80, 0x8F⟩, [])
  else none

/-- Feed one expected continuation byte into a pending sequence. -/
def utf8Cont (p : Utf8Pending) (b : Nat) : Option (Option Utf8Pending × List Char) :=
  if p.lo ≤ b ∧ b ≤ p.hi then
    let acc := p.acc * 64 + (b - 0x80)
    if p.need = 1 then some (none, [Char.ofNat acc])
    else some (some ⟨acc, p.need - 1, 0x80, 0xBF⟩, [])
  else none

/-- Strict UTF-8 decoding of the escaped bytes in a token stream; literal
characters pass through unchanged but may not interrupt a multi-byte
sequence.  Any malformed sequence yields `none` (JS throws `URIError`). -/
def utf8Run? : Option Utf8Pending → List UriTok → Option (List Char)
  | none, [] => some []
  | some _, [] => none
  | none, .lit c :: rest => (utf8Run? none rest).map (fun cs => c :: cs)
  | some _, .lit _ :: _ => none
  | st, .esc b :: rest =>
    match (match st with | none => utf8Start b | some p => utf8Cont p b) with
    | some (st2, out) => (utf8Run? st2 rest).map (fun cs => out ++ cs)
    | none => none

def utf8Toks? (ts : List UriTok) : Option (List Char) := utf8Run? none ts

/-- Lenient UTF-8 decoding (WHATWG): a byte that cannot extend the current
sequence emits U+FFFD and is reprocessed as a fresh start; an invalid start
byte emits U+FFFD and is consumed. -/
def utf8RunLenient : Option Utf8Pending → List UriTok → List Char
  | none, [] => []
  | some _, [] => [Char.ofNat 0xFFFD]
  | none, .lit c :: rest => c :: utf8RunLenient none rest
  | some _, .lit c :: rest => Char.ofNat 0xFFFD :: c :: utf8RunLenient none rest
  | none, .esc b :: rest =>
    match utf8Start b with
    | some (st2, out) => out ++ utf8RunLenient st2 rest
    | none => Char.ofNat 0xFFFD :: utf8RunLenient none rest
  | some p, .esc b :: rest =>
    match utf8Cont p b with
    | some (st2, out) => out ++ utf8RunLenient st2 rest
    | none =>
      match utf8Start b with
      | some (st2, out) => Char.ofNat 0xFFFD :: (out ++ utf8RunLenient st2 rest)
      | none => Char.ofNat 0xFFFD :: Char.ofNat 0xFFFD :: utf8RunLenient none rest

def utf8ToksLenient (ts : List UriTok) : List Char := utf8RunLenient none ts

/-- JS `decodeURIComponent`; `none` models a thrown `URIError`. -/
def decodeURIComponent (s : String) : Option String :=
  (pctToks? s.toList).bind (fun ts => (utf8Toks? ts).map String.mk)

/-! ## URLSearchParams -/

/-- Split a character list at every occurrence of `sep`, keeping empty
segments. -/
def splitOnChar (sep : Char) : List Char → List (List Char)
  | [] => [[]]
  | c :: rest =>
    let r := splitOnChar sep rest
    if c = sep then [] :: r
    else
      match r with
      | seg :: segs => (c :: seg) :: segs
      | [] => [[c]]

/-- Lenient application/x-www-form-urlencoded decode of one component:
`+` becomes a space, then percent-escapes are decoded. -/
def formDecode (s : List Char) : String :=
  String.mk (utf8ToksLenient (pctToksLenient (s.map (fun c => if c = '+' then ' ' else c))))

/-- One `name=value` segment: split at the first `=` (absent `=` gives an
empty value), decoding both sides. -/
def parsePair (seg : List Char) : String × String :=
  (formDecode (seg.takeWhile (· != '=')), formDecode ((seg.dropWhile (· != '=')).drop 1))

/-- The ordered pair list held by `new URLSearchParams(init)`: a single
leading `?` is removed, the string splits on `&`, and empty segments are
skipped. -/
def parseURLParams (init : String) : List (String × String) :=
  let l := init.toList
  let l := if l.head? = some '?' then l.drop 1 else l
  ((splitOnChar '&' l).filter (fun seg => !seg.isEmpty)).map parsePair

/-- `URLSearchParams.get`: the value of the first pair with the given name,
or `none` (JS `null`). -/
def getParam (ps : List (String × String)) (k : String) : Option String :=
  (ps.find? (fun p => p.1 == k)).map (fun p => p.2)

/-! ## Credential resolution (`getAuthHeaders`, script.js lines 306-439)

The hostile environment the resolver inspects, as a snapshot: `tg.initData`
(empty when the bridge exposes none), `window.location.search` and
`window.location.hash` verbatim, and the stored legacy token
`sessionStorage.getItem('legacy_auth_token')`.  The function's two side
effects (persisting a fresh URL token to session storage and stripping it
from the visible URL) do not influence the returned header set and are not
modelled. -/

structure Env where
  tgInitData : String
  locationSearch : String
  locationHash : String
  sessionToken : Option String

/-- The mutable pair `initData` / `debugSource` threaded through the
strategy chain. -/
structure Resolved where
  initData : String
  source : String
deriving DecidableEq

/-- The header object built by `getAuthHeaders`, plus the
`window.lastAuthDebug.source` diagnostic recorded on return. -/
structure AuthHeaders where
  xTelegramInitData : Option String
  authorization : Option String
  xAuthToken : Option String
  source : String
deriving DecidableEq

/-- `window.location.hash.slice(1)`. -/
def hashBody (env : Env) : String := env.locationHash.drop 1

/-- `let decoded = hash; try { decoded = decodeURIComponent(hash) } catch {}` -/
def decodedHash (env : Env) : String :=
  (decodeURIComponent (hashBody env)).getD (hashBody env)

/-- Strategy 0 (lines 321-328): `tgWebAppData` in the query string, taken
when truthy (non-null, non-empty). -/
def searchStrategy (env : Env) : Resolved :=
  match getParam (parseURLParams env.locationSearch) "tgWebAppData" with
  | some v => if v ≠ "" then ⟨v, "search_params"⟩ else ⟨"", "none"⟩
  | none => ⟨"", "none"⟩

/-- Code comment "Strategy A" (lines 335-340): `tgWebAppData` parsed from
the raw fragment; overwrites any query-string result when truthy. -/
def hashParamsStrategy (env : Env) (prev : Resolved) : Resolved :=
  match getParam (parseURLParams (hashBody env)) "tgWebAppData" with
  | some v => if v ≠ "" then ⟨v, "hash_params"⟩ else prev
  | none => prev

/-- The deny-list of meta keys ignored by the reconstruction (lines
350-355). -/
def metaKeys : List String :=
  ["tgWebAppVersion", "tgWebAppPlatform", "tgWebAppThemeParams", "tgWebAppBotInline"]

/-- `Array.prototype.join('&')`. -/
def joinAmp : List String → String
  | [] => ""
  | [s] => s
  | s :: rest => s ++ "&" ++ joinAmp rest

/-- The template `` `${key}=${val}` `` applied to each kept pair, then
`join('&')`. -/
def joinPairs (ps : List (String × String)) : String :=
  joinAmp (ps.map (fun p => p.1 ++ "=" ++ p.2))

/-- The pairs the reconstruction keeps: `URLSearchParams` over the
percent-decoded fragment, minus deny-listed keys, in order. -/
def filteredPairs (env : Env) : List (String × String) :=
  (parseURLParams (decodedHash env)).filter (fun p => !(metaKeys.contains p.1))

/-- Code comment "Strategy B" (lines 342-371): if nothing was found yet,
re-join all non-meta key-value pairs of the decoded fragment with `&`. -/
def filteredReconstruction (env : Env) (prev : Resolved) : Resolved :=
  if prev.initData = "" then
    if (filteredPairs env).length > 0 then
      ⟨joinPairs (filteredPairs env), "hash_filtered_reconstruction"⟩
    else prev
  else prev

/-- `hash.match(/tgWebAppData=([^&]+)/)`: the capture of the first position
where the literal pattern is followed by at least one non-`&` character. -/
def findTgWebAppData : List Char → Option (List Char)
  | [] => none
  | c :: rest =>
    if List.isPrefixOf "tgWebAppData=".toList (c :: rest) then
      let v := ((c :: rest).drop "tgWebAppData=".length).takeWhile (· != '&')
      if v.isEmpty then findTgWebAppData rest else some v
    else findTgWebAppData rest

/-- Code comment "Strategy C" (lines 373-380): regex last resort over the
raw fragment; its result is `decodeURIComponent`-ed, and a decoding error
(caught by the surrounding `try`) leaves both `initData` and `debugSource`
unchanged. -/
def regexFallback (env : Env) (prev : Resolved) : Resolved :=
  if prev.initData = "" then
    match findTgWebAppData (hashBody env).toList with
    | some v =>
      match decodeURIComponent (String.mk v) with
      | some d => ⟨d, "hash_regex_fallback"⟩
      | none => prev
    | none => prev
  else prev

/-- Lines 314-386: the strategy chain producing `initData`/`debugSource`.
A truthy `tg.initData` short-circuits everything else. -/
def resolveInitData (env : Env) : Resolved :=
  if env.tgInitData ≠ "" then ⟨env.tgInitData, "tg.initData"⟩
  else regexFallback env (filteredReconstruction env (hashParamsStrategy env (searchStrategy env)))

/-- Lines 388-392: a truthy `initData` is sent both raw and in `tma` bearer
form. -/
def baseHeaders (r : Resolved) : AuthHeaders :=
  if r.initData ≠ "" then
    ⟨some r.initData, some ("tma " ++ r.initData), none, r.source⟩
  else ⟨none, none, none, r.source⟩

/-- Lines 394-415: the legacy `token` query parameter is attached only when
no `X-Telegram-Init-Data` header was set. -/
def applyUrlToken (env : Env) (h : AuthHeaders) : AuthHeaders :=
  if h.xTelegramInitData = none then
    match getParam (parseURLParams env.locationSearch) "token" with
    | some tok =>
      if tok ≠ "" then
        { h with xAuthToken := some tok,
                 source := if h.source = "none" then "token" else h.source }
      else h
    | none => h
  else h

/-- Lines 417-426: session-stored legacy token, used only when neither a
platform-identity header nor a fresh URL token was found. -/
def applySessionToken (env : Env) (h : AuthHeaders) : AuthHeaders :=
  if h.xTelegramInitData = none ∧ h.xAuthToken = none then
    match env.sessionToken with
    | some st =>
      if st ≠ "" then
        { h with xAuthToken := some st,
                 source := if h.source = "none" then "token_session" else h.source }
      else h
    | none => h
  else h

/-- `getAuthHeaders` (lines 306-439), as a pure function of the environment
snapshot. -/
def getAuthHeaders (env : Env) : AuthHeaders :=
  applySessionToken env (applyUrlToken env (baseHeaders (resolveInitData env)))

/-! ## Editor: validation, draft state, save (script.js lines 1509-1740)

The DOM of one rendered `.question-item` is abstracted to the strings its
form fields currently hold: the `.q-text` textarea and the `.option-input`
fields in document order.  JS `.trim()` is modelled by `jsTrim` below, and
JS `.length` agrees with `String.length` on these claims' ASCII inputs. -/

/-- `CONFIG.MAX_QUESTION_LEN` (line 36). -/
def CONFIG_MAX_QUESTION_LEN : Nat := 500

/-- `CONFIG.MAX_OPTION_LEN` (line 37). -/
def CONFIG_MAX_OPTION_LEN : Nat := 100

/-- The literal limit passed on question-text input events:
`qInput.oninput = () => validateInput(qInput, 300)` (line 1629). -/
def editorQuestionInputLimit : Nat := 300

/-- The literal limit passed on option input events (line 1632). -/
def editorOptionInputLimit : Nat := 100

/-- The whitespace class stripped by JS `String.prototype.trim` (ECMA-262
WhiteSpace and LineTerminator), restricted to the code points it shares
with this development's inputs plus the common Unicode members. -/
def jsWhitespace (c : Char) : Bool :=
  c = ' ' || c = '\t' || c = '\n' || c = '\r' || c = '\x0b' || c = '\x0c' ||
  c = '\u00A0' || c = '\uFEFF'

/-- JS `String.prototype.trim`: strip leading and trailing whitespace. -/
def jsTrim (s : String) : String :=
  String.mk (((s.toList.dropWhile jsWhitespace).reverse.dropWhile jsWhitespace).reverse)

/-- `validateInput(el, limit)` (lines 1509-1522), minus its char-counter DOM
update: the field passes iff its trimmed length is neither zero nor above
the limit.  (The `limit || CONFIG.MAX_QUESTION_LEN` default never fires:
every call site passes a non-zero limit.) -/
def validateInput (value : String) (limit : Nat) : Bool :=
  if (jsTrim value).length > limit ∨ (jsTrim value).length = 0 then false else true

/-- The current form fields of one rendered question item. -/
structure ItemFields where
  qText : String
  options : List String
deriving DecidableEq

/-- A question object as built for `currentQuizData.questions` and the PUT
body. -/
structure Question where
  question : String
  options : List String
  correct_option_id : Nat
deriving DecidableEq

/-- `collectCurrentState` (lines 1525-1547): DOM to memory, values kept as
is (validation happens on save), `correct_option_id` hard-coded to 0. -/
def collectCurrentState (items : List ItemFields) : List Question :=
  items.map (fun it => ⟨it.qText, it.options, 0⟩)

/-- The blank question pushed by `addQuestion` (lines 1571-1575). -/
def blankQuestion : Question := ⟨"", ["", "", "", ""], 0⟩

/-- `addQuestion` (lines 1563-1582): rejected at 50 questions (state
unchanged), otherwise collect then append a blank question. -/
def addQuestion (prev : List Question) (items : List ItemFields) : List Question :=
  if 50 ≤ items.length then prev
  else collectCurrentState items ++ [blankQuestion]

/-- `deleteQuestion` confirm branch (lines 1555-1558): collect, then
`splice(index, 1)`. -/
def deleteQuestion (items : List ItemFields) (index : Nat) : List Question :=
  (collectCurrentState items).eraseIdx index

/-- All form fields of the editor in document order, each with the limit
`saveChanges` validates it against: the question textarea (limit
`CONFIG.MAX_QUESTION_LEN`) followed by its option inputs (limit
`CONFIG.MAX_OPTION_LEN`), item by item (lines 1664-1680). -/
def fieldList (items : List ItemFields) : List (String × Nat) :=
  items.flatMap (fun it =>
    (it.qText, CONFIG_MAX_QUESTION_LEN) :: it.options.map (fun o => (o, CONFIG_MAX_OPTION_LEN)))

/-- The alert key chosen from the first invalid field (lines 1703-1705):
`t('error_empty')` when its trimmed value is empty, else `t('error_limit')`. -/
def saveErrorMessage (v : String) : String :=
  if jsTrim v = "" then "error_empty" else "error_limit"

/-- The `PUT /api/quizzes/{id}` body (lines 1717-1720). -/
structure PutBody where
  title : String
  questions : List Question
deriving DecidableEq

/-- What `saveChanges` does after collecting the form: abort with one alert,
abort silently (the `firstError` query found nothing), or issue the PUT. -/
inductive SaveOutcome where
  | abortAlert (msgKey : String)
  | abortSilent
  | putRequest (body : PutBody)
deriving DecidableEq

/-- `saveChanges` (lines 1656-1721) up to the network call: every field is
re-validated (`hasError` accumulates), and on error the first
`.input-error` element in document order — exactly the first field whose
validation failed — picks the alert; otherwise the PUT body is built from
the trimmed field values with `correct_option_id: 0`. -/
def saveChanges (title : String) (items : List ItemFields) : SaveOutcome :=
  if (fieldList items).any (fun f => !validateInput f.1 f.2) then
    match (fieldList items).find? (fun f => !validateInput f.1 f.2) with
    | some f => .abortAlert (saveErrorMessage f.1)
    | none => .abortSilent
  else
    .putRequest ⟨title, items.map (fun it => ⟨jsTrim it.qText, it.options.map jsTrim, 0⟩)⟩

/-! ## HTTP response classification (C4)

A backend response, reduced to what the handlers inspect: the status code
and the `detail` field of the parsed JSON body.  `respOk` is `Response.ok`
(status in 200-299). -/

structure HttpResponse where
  status : Nat
  detail : Option String
deriving DecidableEq

def respOk (r : HttpResponse) : Bool := 200 ≤ r.status && r.status ≤ 299

/-- How a completed response surfaces in the UI.  `authRedirect` is the
`showAuthRedirect()` landing view; `errorPage` is `showError` replacing the
app container; `alertError` is `tg.showAlert`; `logOnly` is a
`console.error` with no UI change.  Localized strings are named by their
translation key. -/
inductive UiOutcome where
  | authRedirect
  | errorPage (msg : String)
  | alertError (msg : String)
  | logOnly (msg : String)
  | success
deriving DecidableEq

/-- `loadQuizzes` (lines 667-686): 401 redirects; any other non-2xx throws
`t('error_load')`, caught by `showError`. -/
def loadQuizzesOutcome (r : HttpResponse) : UiOutcome :=
  if r.status = 401 then .authRedirect
  else if !respOk r then .errorPage "error_load"
  else .success

/-- `openEditor` (lines 1463-1484): 401 redirects; any other non-2xx throws
`t('error_load')`, and the catch only logs it. -/
def openEditorOutcome (r : HttpResponse) : UiOutcome :=
  if r.status = 401 then .authRedirect
  else if !respOk r then .logOnly "error_load"
  else .success

/-- The PUT in `saveChanges` (lines 1723-1736): 401 redirects; any other
non-2xx throws `t('error_save')`, caught by an alert of `t('error_save')`. -/
def saveChangesPutOutcome (r : HttpResponse) : UiOutcome :=
  if r.status = 401 then .authRedirect
  else if !respOk r then .alertError "error_save"
  else .success

/-- `deleteQuiz` (lines 1376-1395): no 401 branch — every non-2xx response,
401 included, is alerted with the body's `detail`. -/
def deleteQuizOutcome (r : HttpResponse) : UiOutcome :=
  if respOk r then .success
  else .alertError ("Xatolik: " ++ r.detail.getD "O\x27chirib bo\x27lmadi")

/-- `downloadQuiz` (lines 1397-1417): same shape as `deleteQuiz`. -/
def downloadQuizOutcome (r : HttpResponse) : UiOutcome :=
  if respOk r then .success
  else .alertError ("Xatolik: " ++ r.detail.getD "Faylni yuborib bo\x27lmadi")

/-- `performSplit` (lines 1434-1461): no 401 branch — every non-2xx throws
`data.detail || t('error_save')`, caught by an alert of that message. -/
def performSplitOutcome (r : HttpResponse) : UiOutcome :=
  if respOk r then .success
  else .alertError (r.detail.getD "error_save")

/-! ## Split planning (C6) -/

inductive SplitMode where
  | parts
  | size
deriving DecidableEq

/-- `Math.ceil(total / val)` for positive integers. -/
def ceilDiv (total val : Nat) : Nat := (total + val - 1) / val

/-- The validation in `splitConfirm.onclick` (lines 199-224): a
non-positive value silently returns; `size` mode rejects values below 10;
`parts` mode rejects when the resulting chunk `Math.ceil(totalCount/val)`
is below 10.  `val = 0` stands for the `isNaN(val) || val <= 0` guard. -/
def splitConfirmAllowed (totalCount : Nat) (mode : SplitMode) (val : Nat) : Bool :=
  if val = 0 then false
  else
    match mode with
    | .size => if val < 10 then false else true
    | .parts => if ceilDiv totalCount val < 10 then false else true

/-- The gate in `requestSplit` (lines 1422-1426) composed with the modal
confirmation: quizzes under 20 questions never reach the modal, and
`performSplit` (the network call) runs only when both gates pass. -/
def splitAllowed (totalCount : Nat) (mode : SplitMode) (val : Nat) : Bool :=
  if totalCount < 20 then false
  else splitConfirmAllowed totalCount mode val

/-! ## Helper lemmas -/

theorem string_eq_empty_of_length_eq_zero {s : String} (h : s.length = 0) : s = "" := by
  obtain ⟨data⟩ := s
  cases data with
  | nil => rfl
  | cons c cs => simp [String.length] at h

theorem string_ne_empty_of_length_pos {s : String} (h : 0 < s.length) : s ≠ "" := by
  intro he
  rw [he] at h
  simp [String.length] at h

theorem trim_eq_empty_iff (s : String) : jsTrim s = "" ↔ (jsTrim s).length = 0 :=
  ⟨fun h => by rw [h]; rfl, fun h => string_eq_empty_of_length_eq_zero h⟩

theorem joinAmp_cons_length (x : String) (l : List String) :
    x.length ≤ (joinAmp (x :: l)).length := by
  cases l with
  | nil => simp [joinAmp]
  | cons y ys =>
    simp only [joinAmp, String.length_append]
    exact le_trans (Nat.le_add_right _ _) (Nat.le_add_right _ _)

theorem joinPairs_ne_empty {ps : List (String × String)} (h : ps ≠ []) :
    joinPairs ps ≠ "" := by
  obtain ⟨p, rest, rfl⟩ : ∃ q qs, ps = q :: qs := by
    cases ps with
    | nil => exact absurd rfl h
    | cons q qs => exact ⟨q, qs, rfl⟩
  apply string_ne_empty_of_length_pos
  have hx : 0 < (p.1 ++ "=" ++ p.2).length := by
    simp only [String.length_append]
    have h1 : ("=" : String).length = 1 := rfl
    omega
  calc 0 < (p.1 ++ "=" ++ p.2).length := hx
    _ ≤ (joinAmp ((p.1 ++ "=" ++ p.2) :: rest.map (fun q => q.1 ++ "=" ++ q.2))).length :=
        joinAmp_cons_length _ _
    _ = (joinPairs (p :: rest)).length := rfl

theorem applyUrlToken_initData (env : Env) (h : AuthHeaders) :
    (applyUrlToken env h).xTelegramInitData = h.xTelegramInitData := by
  unfold applyUrlToken
  repeat' split
  all_goals rfl

theorem applySessionToken_initData (env : Env) (h : AuthHeaders) :
    (applySessionToken env h).xTelegramInitData = h.xTelegramInitData := by
  unfold applySessionToken
  repeat' split
  all_goals rfl

theorem applyUrlToken_skip (env : Env) (h : AuthHeaders)
    (hs : h.xTelegramInitData ≠ none) : applyUrlToken env h = h := by
  unfold applyUrlToken
  rw [if_neg hs]

theorem applySessionToken_skip (env : Env) (h : AuthHeaders)
    (hs : h.xTelegramInitData ≠ none) : applySessionToken env h = h := by
  unfold applySessionToken
  rw [if_neg (fun hc => hs hc.1)]

/-- When the chain resolves a non-empty payload, the returned headers are
exactly the platform-identity pair with no legacy token. -/
theorem getAuthHeaders_of_resolved (env : Env) (hr : (resolveInitData env).initData ≠ "") :
    getAuthHeaders env =
      ⟨some (resolveInitData env).initData,
       some ("tma " ++ (resolveInitData env).initData), none, (resolveInitData env).source⟩ := by
  unfold getAuthHeaders baseHeaders
  rw [if_pos hr, applyUrlToken_skip _ _ (by simp), applySessionToken_skip _ _ (by simp)]

/-! ## Claim theorems -/

/-- C5: whenever the hosting bridge exposes a non-empty `tg.initData`,
credential resolution uses that value verbatim — the headers are exactly
`X-Telegram-Init-Data: tg.initData` and `Authorization: tma tg.initData`
with no legacy token — and records source `"tg.initData"`, regardless of
the query string, the fragment, the fallbacks, or any stored token. -/
theorem tgInitData_precedence (env : Env) (h : env.tgInitData ≠ "") :
    getAuthHeaders env =
      ⟨some env.tgInitData, some ("tma " ++ env.tgInitData), none, "tg.initData"⟩ := by
  have hres : resolveInitData env = ⟨env.tgInitData, "tg.initData"⟩ := by
    unfold resolveInitData
    rw [if_pos h]
  rw [getAuthHeaders_of_resolved env (by rw [hres]; exact h), hres]

/-- Witness for C5 at a concrete environment that also offers a query
token, a fragment payload and a stored session token. -/
theorem tgInitData_precedence_witness :
    getAuthHeaders ⟨"abc", "?token=xyz", "#tgWebAppData=zzz", some "st"⟩ =
      ⟨some "abc", some ("tma " ++ "abc"), none, "tg.initData"⟩ :=
  tgInitData_precedence ⟨"abc", "?token=xyz", "#tgWebAppData=zzz", some "st"⟩ (by decide)

/-- C1 counterexample: with a platform-identity payload present
(`tg.initData = "abc"`) and a `token=xyz` query parameter, the returned
header set contains the platform-identity headers but no `X-Auth-Token` —
the legacy token is not attached in addition to them. -/
theorem tokenWithInitData_counterexample :
    (getAuthHeaders ⟨"abc", "?token=xyz", "", none⟩).xTelegramInitData = some "abc"
    ∧ (getAuthHeaders ⟨"abc", "?token=xyz", "", none⟩).authorization = some "tma abc"
    ∧ getParam (parseURLParams "?token=xyz") "token" = some "xyz"
    ∧ (getAuthHeaders ⟨"abc", "?token=xyz", "", none⟩).xAuthToken = none := by decide

/-- C1 amended: the legacy `token` query parameter is attached instead of —
not in addition to — the platform-identity headers: whenever resolution
obtained a platform-identity payload, `X-Auth-Token` is absent, and the
URL token is attached exactly when no payload was obtained and the token is
truthy. -/
theorem legacyToken_only_without_initData (env : Env) :
    ((getAuthHeaders env).xTelegramInitData ≠ none → (getAuthHeaders env).xAuthToken = none)
    ∧ (∀ tok, (resolveInitData env).initData = "" →
        getParam (parseURLParams env.locationSearch) "token" = some tok → tok ≠ "" →
        (getAuthHeaders env).xAuthToken = some tok) := by
  constructor
  · intro hsome
    by_cases hr : (resolveInitData env).initData = ""
    · exfalso
      apply hsome
      unfold getAuthHeaders
      rw [applySessionToken_initData, applyUrlToken_initData]
      unfold baseHeaders
      rw [if_neg (fun hc => hc hr)]
    · rw [getAuthHeaders_of_resolved env hr]
  · intro tok hr htok hne
    unfold getAuthHeaders
    have hbase : baseHeaders (resolveInitData env) = ⟨none, none, none, (resolveInitData env).source⟩ := by
      unfold baseHeaders
      rw [if_neg (fun hc => hc hr)]
    rw [hbase]
    unfold applyUrlToken
    rw [if_pos rfl]
    simp only [htok]
    rw [if_pos hne]
    unfold applySessionToken
    rw [if_neg (fun hc => by simp at hc)]

/-- Witness for C1 amended: with the payload present the token is dropped;
without it the same query token is attached. -/
theorem legacyToken_only_without_initData_witness :
    (getAuthHeaders ⟨"abc", "?token=xyz", "", none⟩).xAuthToken = none
    ∧ (getAuthHeaders ⟨"", "?token=xyz", "", none⟩).xAuthToken = some "xyz" :=
  ⟨(legacyToken_only_without_initData ⟨"abc", "?token=xyz", "", none⟩).1 (by decide),
   (legacyToken_only_without_initData ⟨"", "?token=xyz", "", none⟩).2 "xyz"
     (by decide) (by decide) (by decide)⟩

/-- C2 counterexample: for the fragment `#a=%41bc&hash=xyz` (a flat
key-value list with no `tgWebAppData` entry and no deny-listed key), the
reconstructive fallback produces `a=Abc&hash=xyz`: the pair `a=%41bc` does
not appear byte-for-byte — its value has been percent-decoded (`%41` → `A`)
— so the output differs from the byte-for-byte re-join `a=%41bc&hash=xyz`. -/
theorem reconstruction_decodes_counterexample :
    (getAuthHeaders ⟨"", "", "#a=%41bc&hash=xyz", none⟩).xTelegramInitData
      = some "a=Abc&hash=xyz"
    ∧ (getAuthHeaders ⟨"", "", "#a=%41bc&hash=xyz", none⟩).source
      = "hash_filtered_reconstruction"
    ∧ getParam (parseURLParams (hashBody ⟨"", "", "#a=%41bc&hash=xyz", none⟩)) "tgWebAppData"
      = none
    ∧ "a=Abc&hash=xyz" ≠ "a=%41bc&hash=xyz"
    ∧ ¬ List.IsInfix "a=%41bc".toList "a=Abc&hash=xyz".toList := by decide

/-- C2 amended: when strategies A and B (query string and direct
`tgWebAppData` in the fragment) fail, the reconstruction percent-decodes
the whole fragment (`decodeURIComponent`) and parses it with
`URLSearchParams` — which percent-decodes each key and value again — then
joins the pairs not on the deny-list with `&` without re-encoding.  Pairs
therefore appear in percent-decoded form, not byte-for-byte with their
original percent-encoding. -/
theorem reconstruction_joins_decoded_pairs (env : Env)
    (h0 : env.tgInitData = "")
    (h1 : getParam (parseURLParams env.locationSearch) "tgWebAppData" = none
          ∨ getParam (parseURLParams env.locationSearch) "tgWebAppData" = some "")
    (h2 : getParam (parseURLParams (hashBody env)) "tgWebAppData" = none
          ∨ getParam (parseURLParams (hashBody env)) "tgWebAppData" = some "")
    (h3 : filteredPairs env ≠ []) :
    (getAuthHeaders env).xTelegramInitData = some (joinPairs (filteredPairs env))
    ∧ (getAuthHeaders env).source = "hash_filtered_reconstruction" := by
  have hsearch : searchStrategy env = ⟨"", "none"⟩ := by
    unfold searchStrategy
    rcases h1 with h | h <;> simp [h]
  have hhash : hashParamsStrategy env ⟨"", "none"⟩ = ⟨"", "none"⟩ := by
    unfold hashParamsStrategy
    rcases h2 with h | h <;> simp [h]
  have hfilter : filteredReconstruction env ⟨"", "none"⟩ =
      ⟨joinPairs (filteredPairs env), "hash_filtered_reconstruction"⟩ := by
    unfold filteredReconstruction
    rw [if_pos rfl, if_pos (by simpa [List.length_pos] using h3)]
  have hjoin : joinPairs (filteredPairs env) ≠ "" := joinPairs_ne_empty h3
  have hregex : regexFallback env ⟨joinPairs (filteredPairs env), "hash_filtered_reconstruction"⟩ =
      ⟨joinPairs (filteredPairs env), "hash_filtered_reconstruction"⟩ := by
    unfold regexFallback
    rw [if_neg hjoin]
  have hres : resolveInitData env =
      ⟨joinPairs (filteredPairs env), "hash_filtered_reconstruction"⟩ := by
    unfold resolveInitData
    rw [if_neg (fun hc => hc h0), hsearch, hhash, hfilter, hregex]
  rw [getAuthHeaders_of_resolved env (by rw [hres]; exact hjoin), hres]
  exact ⟨rfl, rfl⟩

/-- Witness for C2 amended at the concrete fragment `#a=%41bc&hash=xyz`. -/
theorem reconstruction_joins_decoded_pairs_witness :
    (getAuthHeaders ⟨"", "", "#a=%41bc&hash=xyz", none⟩).xTelegramInitData
      = some (joinPairs (filteredPairs ⟨"", "", "#a=%41bc&hash=xyz", none⟩))
    ∧ (getAuthHeaders ⟨"", "", "#a=%41bc&hash=xyz", none⟩).source
      = "hash_filtered_reconstruction" :=
  reconstruction_joins_decoded_pairs ⟨"", "", "#a=%41bc&hash=xyz", none⟩
    rfl (by decide) (by decide) (by decide)

set_option maxRecDepth 8000 in
/-- C3 counterexample: a question text of 301 characters.  The claim says
the limit 300 is applied both on input events and before save; on input it
is (the field is flagged over-limit), but the save-time validation uses
`CONFIG.MAX_QUESTION_LEN = 500` and accepts it — `saveChanges` proceeds to
the PUT with the 301-character text. -/
theorem questionLimit_counterexample :
    validateInput (String.mk (List.replicate 301 'a')) editorQuestionInputLimit = false
    ∧ validateInput (String.mk (List.replicate 301 'a')) CONFIG_MAX_QUESTION_LEN = true
    ∧ saveChanges "T" [⟨String.mk (List.replicate 301 'a'), ["a", "b", "c", "d"]⟩]
      = .putRequest ⟨"T", [⟨String.mk (List.replicate 301 'a'), ["a", "b", "c", "d"], 0⟩]⟩ := by
  decide

/-- C3 amended: question-text validation applies the limit 300 only on
input events (`renderEditor` hard-codes 300); the validation recomputed
before save applies `CONFIG.MAX_QUESTION_LEN = 500` instead, so trimmed
lengths in 301..500 fail the input-event check but pass the save check. -/
theorem questionLimit_input_vs_save (s : String) :
    (validateInput s editorQuestionInputLimit = true
      ↔ 1 ≤ (jsTrim s).length ∧ (jsTrim s).length ≤ 300)
    ∧ (validateInput s CONFIG_MAX_QUESTION_LEN = true
      ↔ 1 ≤ (jsTrim s).length ∧ (jsTrim s).length ≤ 500) := by
  unfold validateInput editorQuestionInputLimit CONFIG_MAX_QUESTION_LEN
  constructor <;> (split_ifs with h <;> simp <;> omega)

set_option maxRecDepth 8000 in
/-- Witness for C3 amended at a 400-character text: over the input-event
limit, within the save limit. -/
theorem questionLimit_input_vs_save_witness :
    validateInput (String.mk (List.replicate 400 'a')) editorQuestionInputLimit = false
    ∧ validateInput (String.mk (List.replicate 400 'a')) CONFIG_MAX_QUESTION_LEN = true := by
  constructor
  · rw [← Bool.not_eq_true]
    intro hv
    exact absurd ((questionLimit_input_vs_save (String.mk (List.replicate 400 'a'))).1.mp hv)
      (by decide)
  · exact (questionLimit_input_vs_save (String.mk (List.replicate 400 'a'))).2.mpr (by decide)

/-- C4 counterexample: a 401 response to the delete operation is not
classified as Unauthenticated — `deleteQuiz` has no 401 branch, so the 401
is surfaced as an application error alert carrying the backend detail
message, not the redirect-to-host view. -/
theorem delete401_counterexample :
    deleteQuizOutcome ⟨401, some "Not authenticated"⟩
      = .alertError "Xatolik: Not authenticated"
    ∧ deleteQuizOutcome ⟨401, some "Not authenticated"⟩ ≠ .authRedirect := by decide

/-- C4 amended: only the list, fetch-by-id and save (PUT) operations
classify HTTP 401 as Unauthenticated and show the redirect-to-host view;
the delete, download and split operations treat a 401 like any other
non-2xx response and surface it as an application error with the detail
message. -/
theorem status401_classification (r : HttpResponse) (h : r.status = 401) :
    loadQuizzesOutcome r = .authRedirect
    ∧ openEditorOutcome r = .authRedirect
    ∧ saveChangesPutOutcome r = .authRedirect
    ∧ deleteQuizOutcome r = .alertError ("Xatolik: " ++ r.detail.getD "O\x27chirib bo\x27lmadi")
    ∧ downloadQuizOutcome r = .alertError ("Xatolik: " ++ r.detail.getD "Faylni yuborib bo\x27lmadi")
    ∧ performSplitOutcome r = .alertError (r.detail.getD "error_save") := by
  have hok : respOk r = false := by
    unfold respOk
    rw [h]
    decide
  unfold loadQuizzesOutcome openEditorOutcome saveChangesPutOutcome deleteQuizOutcome
    downloadQuizOutcome performSplitOutcome
  rw [h, hok]
  exact ⟨rfl, rfl, rfl, rfl, rfl, rfl⟩

/-- Witness for C4 amended at a concrete 401 response. -/
theorem status401_classification_witness :
    loadQuizzesOutcome ⟨401, some "Not authenticated"⟩ = .authRedirect
    ∧ deleteQuizOutcome ⟨401, some "Not authenticated"⟩
      = .alertError "Xatolik: Not authenticated" := by
  have h := status401_classification ⟨401, some "Not authenticated"⟩ rfl
  exact ⟨h.1, h.2.2.2.1⟩

/-- C6: composed split gating — a quiz under 20 questions is always
rejected; for a positive value, a split of at least 20 questions is allowed
in parts mode iff the chunk `ceil(total/value)` is at least 10, and in size
mode iff the value is at least 10.  The two worked examples of the claim
(45/5 rejected, 45/4 accepted) appear in the witness. -/
theorem splitAllowed_iff (total : Nat) (mode : SplitMode) (val : Nat) (hv : 1 ≤ val) :
    splitAllowed total mode val = true ↔
      20 ≤ total ∧ (match mode with
        | .parts => 10 ≤ ceilDiv total val
        | .size => 10 ≤ val) := by
  unfold splitAllowed splitConfirmAllowed
  cases mode <;> split_ifs with h1 h2 h3 <;> simp_all

/-- Witness for C6: total 45 split into 5 parts (chunk 9) is rejected,
into 4 parts (chunk 12) accepted; total 18 is rejected whatever the size
value. -/
theorem splitAllowed_iff_witness :
    splitAllowed 45 SplitMode.parts 5 = false
    ∧ splitAllowed 45 SplitMode.parts 4 = true
    ∧ splitAllowed 18 SplitMode.size 50 = false := by
  refine ⟨?_, (splitAllowed_iff 45 SplitMode.parts 4 (by decide)).mpr (by decide), ?_⟩
  · rw [← Bool.not_eq_true]
    intro hv
    exact absurd ((splitAllowed_iff 45 SplitMode.parts 5 (by decide)).mp hv) (by decide)
  · rw [← Bool.not_eq_true]
    intro hv
    exact absurd ((splitAllowed_iff 18 SplitMode.size 50 (by decide)).mp hv) (by decide)

/-- C7: if some field fails validation at save time, `saveChanges` issues
no PUT request at all and reports exactly the one message determined by the
first invalid field in document order — `error_empty` when that field's
trimmed value is empty, `error_limit` otherwise. -/
theorem save_blocks_first_invalid (title : String) (items : List ItemFields)
    (f : String × Nat)
    (h : (fieldList items).find? (fun g => !validateInput g.1 g.2) = some f) :
    saveChanges title items = .abortAlert (saveErrorMessage f.1)
    ∧ ∀ body, saveChanges title items ≠ .putRequest body := by
  have hmem : f ∈ fieldList items := List.mem_of_find?_eq_some h
  have hp := List.find?_some h
  have hasErr : ((fieldList items).any (fun g => !validateInput g.1 g.2)) = true :=
    List.any_eq_true.mpr ⟨f, hmem, hp⟩
  have hout : saveChanges title items = .abortAlert (saveErrorMessage f.1) := by
    unfold saveChanges
    rw [if_pos hasErr]
    simp only [h]
  exact ⟨hout, fun body hbody => by rw [hout] at hbody; exact SaveOutcome.noConfusion hbody⟩

set_option maxRecDepth 8000 in
/-- Witness for C7: a draft whose first question text is empty and whose
third option is 101 characters long aborts with `error_empty` (the first
invalid field in document order is the question text). -/
theorem save_blocks_first_invalid_witness :
    saveChanges "T" [⟨"", ["a", "b", String.mk (List.replicate 101 'x'), "d"]⟩]
      = SaveOutcome.abortAlert "error_empty" :=
  (save_blocks_first_invalid "T" [⟨"", ["a", "b", String.mk (List.replicate 101 'x'), "d"]⟩]
    ("", CONFIG_MAX_QUESTION_LEN) (by decide)).1

/-- C8: option validation is exactly `1 ≤ trimmed length ≤ 100`; a
zero-length trimmed value fails and is reported with the empty-field
message, an over-limit one fails and is reported with the over-limit
message. -/
theorem option_validation_spec (s : String) :
    (validateInput s CONFIG_MAX_OPTION_LEN = true
      ↔ 1 ≤ (jsTrim s).length ∧ (jsTrim s).length ≤ 100)
    ∧ ((jsTrim s).length = 0 →
        validateInput s CONFIG_MAX_OPTION_LEN = false ∧ saveErrorMessage s = "error_empty")
    ∧ (100 < (jsTrim s).length →
        validateInput s CONFIG_MAX_OPTION_LEN = false ∧ saveErrorMessage s = "error_limit") := by
  unfold validateInput CONFIG_MAX_OPTION_LEN saveErrorMessage
  refine ⟨?_, fun h0 => ?_, fun hgt => ?_⟩
  · split_ifs with h <;> simp <;> omega
  · rw [if_pos (Or.inr h0), if_pos ((trim_eq_empty_iff s).mpr h0)]
    exact ⟨rfl, rfl⟩
  · rw [if_pos (Or.inl hgt), if_neg (fun he => by
      have := (trim_eq_empty_iff s).mp he
      omega)]
    exact ⟨rfl, rfl⟩

set_option maxRecDepth 8000 in
/-- Witness for C8: exactly 100 characters pass, 101 fail as over-limit,
an all-whitespace option fails as empty. -/
theorem option_validation_spec_witness :
    validateInput (String.mk (List.replicate 100 'a')) CONFIG_MAX_OPTION_LEN = true
    ∧ validateInput (String.mk (List.replicate 101 'a')) CONFIG_MAX_OPTION_LEN = false
    ∧ saveErrorMessage (String.mk (List.replicate 101 'a')) = "error_limit"
    ∧ validateInput "   " CONFIG_MAX_OPTION_LEN = false
    ∧ saveErrorMessage "   " = "error_empty" :=
  ⟨(option_validation_spec (String.mk (List.replicate 100 'a'))).1.mpr (by decide),
   ((option_validation_spec (String.mk (List.replicate 101 'a'))).2.2 (by decide)).1,
   ((option_validation_spec (String.mk (List.replicate 101 'a'))).2.2 (by decide)).2,
   ((option_validation_spec "   ").2.1 (by decide)).1,
   ((option_validation_spec "   ").2.1 (by decide)).2⟩

/-- `true` iff every question of the list has `correct_option_id = 0`. -/
def allCorrectZero (qs : List Question) : Bool :=
  qs.all (fun q => q.correct_option_id == 0)

/-- C9: every mutation path of the draft hard-codes `correct_option_id = 0`
for every question: collecting the DOM, appending a blank question (when
the 50-question cap allows the mutation), deleting a question, and the PUT
payload built by a successful save. -/
theorem correctOption_always_zero (items : List ItemFields) (prev : List Question)
    (index : Nat) (title : String) :
    allCorrectZero (collectCurrentState items) = true
    ∧ (items.length < 50 → allCorrectZero (addQuestion prev items) = true)
    ∧ allCorrectZero (deleteQuestion items index) = true
    ∧ (∀ body, saveChanges title items = .putRequest body →
        allCorrectZero body.questions = true) := by
  have hcollect : allCorrectZero (collectCurrentState items) = true := by
    unfold allCorrectZero collectCurrentState
    rw [List.all_eq_true]
    intro q hq
    obtain ⟨it, _, rfl⟩ := List.mem_map.mp hq
    rfl
  refine ⟨hcollect, fun hlt => ?_, ?_, fun body hbody => ?_⟩
  · unfold addQuestion
    rw [if_neg (by omega)]
    unfold allCorrectZero at hcollect ⊢
    rw [List.all_eq_true] at hcollect ⊢
    intro q hq
    rcases List.mem_append.mp hq with h | h
    · exact hcollect q h
    · rw [List.mem_singleton.mp h]
      rfl
  · unfold deleteQuestion
    unfold allCorrectZero at hcollect ⊢
    rw [List.all_eq_true] at hcollect ⊢
    intro q hq
    exact hcollect q (List.eraseIdx_subset _ _ hq)
  · unfold saveChanges at hbody
    split at hbody
    · split at hbody <;> exact SaveOutcome.noConfusion hbody
    · injection hbody with hh
      subst hh
      unfold allCorrectZero
      rw [List.all_eq_true]
      intro q hq
      obtain ⟨it, _, rfl⟩ := List.mem_map.mp hq
      rfl

/-- Witness for C9 on a concrete two-question draft. -/
theorem correctOption_always_zero_witness :
    allCorrectZero (addQuestion [] [⟨"q1", ["a", "b", "c", "d"]⟩, ⟨"q2", ["e", "f", "g", "h"]⟩])
      = true
    ∧ allCorrectZero
        [Question.mk "q1" ["a", "b", "c", "d"] 0, Question.mk "q2" ["e", "f", "g", "h"] 0]
      = true :=
  ⟨(correctOption_always_zero [⟨"q1", ["a", "b", "c", "d"]⟩, ⟨"q2", ["e", "f", "g", "h"]⟩]
      [] 0 "T").2.1 (by decide),
   (correctOption_always_zero [⟨"q1", ["a", "b", "c", "d"]⟩, ⟨"q2", ["e", "f", "g", "h"]⟩]
      [] 0 "T").2.2.2
      (PutBody.mk "T" [Question.mk "q1" ["a", "b", "c", "d"] 0, Question.mk "q2" ["e", "f", "g", "h"] 0])
      (by decide)⟩

/-- C10: whenever `saveChanges` reaches the PUT, every persisted string is
the whitespace-trimmed form of the corresponding rendered field: the body
is exactly the item list mapped through trim (question text and each
option), with the title passed through. -/
theorem savePayload_trimmed (title : String) (items : List ItemFields) (body : PutBody)
    (h : saveChanges title items = .putRequest body) :
    body.title = title
    ∧ body.questions
      = items.map (fun it => ⟨jsTrim it.qText, it.options.map jsTrim, 0⟩) := by
  unfold saveChanges at h
  split at h
  · split at h <;> exact SaveOutcome.noConfusion h
  · injection h with hh
    subst hh
    exact ⟨rfl, rfl⟩

/-- Witness for C10 on fields that still carry surrounding whitespace. -/
theorem savePayload_trimmed_witness :
    (PutBody.mk "T" [Question.mk "q" ["a", "b", "c", "d"] 0]).title = "T"
    ∧ (PutBody.mk "T" [Question.mk "q" ["a", "b", "c", "d"] 0]).questions
      = [ItemFields.mk "  q  " [" a ", "b ", " c", "d"]].map
          (fun it => ⟨jsTrim it.qText, it.options.map jsTrim, 0⟩) :=
  savePayload_trimmed "T" [ItemFields.mk "  q  " [" a ", "b ", " c", "d"]]
    (PutBody.mk "T" [Question.mk "q" ["a", "b", "c", "d"] 0]) (by decide)

end QuizBot
